import Mathlib

/-!
Shallow embedding of the farmersdog-mcp server core (src/src/index.ts).

The embedding covers: the request-interception route handler
(handleRoute), the interception broker built by executeInterceptedQuery
(modelled as an explicit state machine driven by events of the
underlying browser connection), the session store (loadSession,
clearSession), the query executor retry logic (FarmersDogClient.query),
the fresh-login retry loop and browser-resource bookkeeping
(FarmersDogClient.getPage step 3 and FarmersDogClient.login), the
Turnstile challenge solver (FarmersDogClient.solveTurnstile), and the
session-acquisition algorithm (FarmersDogClient.getPage).
-/

/-- Constant GRAPHQL_URL from index.ts line 11. -/
def GRAPHQL_URL : String :=
  "https://core-api-customer.k8s.east.thefarmersdog.com/graphql"

/-- Constant CUSTOMER_GRAPHQL_URL from index.ts line 12. -/
def CUSTOMER_GRAPHQL_URL : String :=
  "https://core-api-customer.k8s.east.thefarmersdog.com/customer-graphql"

/-- Constant MAX_LOGIN_RETRIES from index.ts line 13. -/
def MAX_LOGIN_RETRIES : Nat := 3

/-- The host marker used by handleRoute and the response listener:
url.includes("core-api-customer"). -/
def HOST_MARKER : String := "core-api-customer"

/-- Helper for strIncludes: does sub occur as a contiguous sublist. -/
def strIncludesAux (sub : List Char) : List Char → Bool
  | [] => sub.isPrefixOf []
  | c :: rest => sub.isPrefixOf (c :: rest) || strIncludesAux sub rest

/-- JavaScript String.prototype.includes: substring containment. -/
def strIncludes (s sub : String) : Bool :=
  strIncludesAux sub.toList s.toList

/-- PendingQuery record (index.ts lines 45-51).  The resolve and reject
callbacks are closures; their effect (setting the per-call swapped flag)
is represented structurally in the broker state machine below, so the
record here carries only the data fields.  The variables field is the
already-serialized JSON text of the variables record. -/
structure PendingQuery where
  targetUrl : String
  query : String
  vars : String
deriving DecidableEq

/-- JSON.stringify of the swapped body at index.ts line 65:
JSON.stringify with fields query and variables (string escaping of the
query text is not modelled; the variables field is already JSON text). -/
def serializeBody (query vars : String) : String :=
  "\x7b\"query\":\"" ++ query ++ "\",\"variables\":" ++ vars ++ "\x7d"

/-- What the route handler does with an intercepted request: either
route.continue with the swapped url and postData (index.ts lines 63-66)
or route.continue() with no arguments, forwarding the request completely
unmodified (index.ts line 68). -/
inductive RouteAction where
  | continueSwapped (url : String) (postData : String)
  | continuePassthrough
deriving DecidableEq

/-- Outcome of one invocation of handleRoute: the pendingQuery slot
after the call, the forwarding action, and whether pq.resolve was
invoked (the swap-happened signal, index.ts line 61). -/
structure RouteResult where
  pendingAfter : Option PendingQuery
  action : RouteAction
  swapSignalled : Bool
deriving DecidableEq

/-- handleRoute from index.ts lines 55-70.  The handler reads only the
request url: if pendingQuery is set and the url contains the host
marker, it clears the slot, signals the swap, and forwards with the
pending target url and the serialized body; otherwise it forwards the
request untouched. -/
def handleRoute (pending : Option PendingQuery) (url : String) : RouteResult :=
  match pending with
  | some pq =>
    if strIncludes url HOST_MARKER then
      ⟨none, RouteAction.continueSwapped pq.targetUrl (serializeBody pq.query pq.vars), true⟩
    else
      ⟨some pq, RouteAction.continuePassthrough, false⟩
  | none => ⟨none, RouteAction.continuePassthrough, false⟩

/-- A JavaScript value as far as the response listener inspects one:
only truthiness and identity of the data field matter. -/
inductive JsVal where
  | vnull
  | vundef
  | vbool (b : Bool)
  | vnum (n : Int)
  | vstr (s : String)
  | vobj (id : Nat)
  | varr (id : Nat)
deriving DecidableEq

/-- JavaScript truthiness, used by the check if (json.data) at index.ts
line 312. -/
def JsVal.truthy : JsVal → Bool
  | .vnull => false
  | .vundef => false
  | .vbool b => b
  | .vnum n => decide (n ≠ 0)
  | .vstr s => decide (s ≠ "")
  | .vobj _ => true
  | .varr _ => true

/-- The body of an observed response as the listener sees it after
JSON.parse (index.ts lines 310-311): either parsing (or reading the
text) threw, which the catch at line 317 swallows, or it produced a
value whose data field is the given JsVal (vundef when the field is
absent; a thrown property access on a null root is folded into
unparseable since both are swallowed identically). -/
inductive RespBody where
  | unparseable
  | parsed (dataField : JsVal)
deriving DecidableEq

/-- Timeout constant of the setTimeout at index.ts line 293. -/
def QUERY_TIMEOUT_MS : Nat := 30000

/-- The rejection message of the timeout path, index.ts line 292. -/
def QUERY_TIMEOUT_MESSAGE : String :=
  "Query timeout (30s) — app didn\x27t make an interceptable API call."

deriving instance DecidableEq for Except

/-- State of one executeInterceptedQuery call (index.ts lines 288-324)
together with the global pendingQuery slot: the per-call swapped flag,
whether the response listener is still attached to the page, whether
the 30s timer is still armed, and the settled promise outcome. -/
structure BrokerState where
  pending : Option PendingQuery
  swapped : Bool
  listenerAttached : Bool
  timerActive : Bool
  timerDelayMs : Nat
  outcome : Option (Except String JsVal)
deriving DecidableEq

/-- Events delivered by the browser connection event loop: the route
handler firing for an outgoing request, a response arriving, and the
timeout timer firing. -/
inductive BrokerEvent where
  | request (url : String)
  | response (url : String) (body : RespBody)
  | timerFires
deriving DecidableEq

/-- A promise settles at most once: resolve after settlement is a
no-op. -/
def settleOk (o : Option (Except String JsVal)) (d : JsVal) :
    Option (Except String JsVal) :=
  match o with
  | none => some (Except.ok d)
  | some x => some x

/-- A promise settles at most once: reject after settlement is a
no-op. -/
def settleErr (o : Option (Except String JsVal)) (msg : String) :
    Option (Except String JsVal) :=
  match o with
  | none => some (Except.error msg)
  | some x => some x

/-- responseListenerRef from index.ts lines 306-318: ignore every
response while the swap has not happened; ignore responses whose url
does not contain the host marker; ignore unparseable bodies; on a
truthy data field, clear the timer, detach the listener and resolve
with the data payload. -/
def respListener (st : BrokerState) (url : String) (body : RespBody) :
    BrokerState :=
  if st.swapped = false then st
  else if strIncludes url HOST_MARKER = false then st
  else
    match body with
    | RespBody.unparseable => st
    | RespBody.parsed d =>
      if d.truthy then
        { st with timerActive := false, listenerAttached := false,
                  outcome := settleOk st.outcome d }
      else st

/-- One step of the broker state machine.  A request event runs
handleRoute on the slot; pq.resolve (index.ts line 61) sets the
per-call swapped flag.  A response event runs the listener only while
it is attached.  The timer event (index.ts lines 290-293) clears the
slot and rejects with the timeout message; it fires at most once. -/
def brokerStep (st : BrokerState) (e : BrokerEvent) : BrokerState :=
  match e with
  | BrokerEvent.request url =>
    let rr := handleRoute st.pending url
    { st with pending := rr.pendingAfter,
              swapped := st.swapped || rr.swapSignalled }
  | BrokerEvent.response url body =>
    if st.listenerAttached then respListener st url body else st
  | BrokerEvent.timerFires =>
    if st.timerActive then
      { st with timerActive := false, pending := none,
                outcome := settleErr st.outcome QUERY_TIMEOUT_MESSAGE }
    else st

/-- The state set up by executeInterceptedQuery before any event is
processed (index.ts lines 290-319): timer armed with the 30s delay,
pendingQuery slot filled, swapped false, listener attached, promise
unsettled. -/
def initBroker (targetUrl query vars : String) : BrokerState :=
  ⟨some ⟨targetUrl, query, vars⟩, false, true, true, QUERY_TIMEOUT_MS, none⟩

/-- Run the broker machine over a sequence of event-loop events. -/
def runBroker (st : BrokerState) (evs : List BrokerEvent) : BrokerState :=
  evs.foldl brokerStep st

/-! ## Session store (index.ts lines 24-38) -/

/-- The 8 hour TTL used by loadSession at index.ts line 31. -/
def SESSION_TTL_MS : Int := 8 * 3600 * 1000

/-- Contents of the session file as JSON.parse sees them: either the
text is not valid JSON (JSON.parse throws, caught at index.ts line 32),
or it parses to an object whose wsEndpoint and savedAt fields may each
be absent (clearSession writes an empty object, so both fields absent
is a reachable state). -/
inductive FileContent where
  | malformed
  | record (wsEndpoint : Option String) (savedAt : Option Int)
deriving DecidableEq

/-- The empty record written by clearSession (index.ts line 35). -/
def EMPTY_RECORD : FileContent := FileContent.record none none

/-- loadSession from index.ts lines 27-33.  The file argument is none
when the file does not exist.  A record without a numeric savedAt makes
the age comparison evaluate on NaN, which compares false, so the record
is not returned; the strict comparison now - savedAt < TTL gates the
returned descriptor.  The returned value is the parsed record itself. -/
def loadSession (now : Int) (file : Option FileContent) :
    Option (Option String × Int) :=
  match file with
  | none => none
  | some FileContent.malformed => none
  | some (FileContent.record ws savedAt) =>
    match savedAt with
    | none => none
    | some t => if now - t < SESSION_TTL_MS then some (ws, t) else none

/-! ## Query executor retry (index.ts lines 258-286) -/

/-- The dead-target error-message class tested at index.ts line 263:
message includes "Target closed" or includes "timeout". -/
def isDeadTargetMsg (msg : String) : Bool :=
  strIncludes msg "Target closed" || strIncludes msg "timeout"

/-- Environment of one FarmersDogClient.query call: the outcomes the
collaborators would produce, in order.  getPage1 and exec1 are the
first getPage and executeInterceptedQuery outcomes; getPage2 and exec2
are the outcomes of the calls made inside the retry branch, used only
if that branch runs. -/
structure QueryEnv (T : Type) where
  getPage1 : Except String Unit
  exec1 : Except String T
  getPage2 : Except String Unit
  exec2 : Except String T

/-- Observable outcome of one FarmersDogClient.query call: the result,
how many times executeInterceptedQuery was invoked, and whether
clearSession ran. -/
structure QueryRun (T : Type) where
  result : Except String T
  execCalls : Nat
  sessionCleared : Bool
deriving DecidableEq

/-- FarmersDogClient.query from index.ts lines 258-271 (queryCustomer
at lines 273-286 is identical up to the target url, which this model
leaves to the environment).  On a first failure whose message is in the
dead-target class and with retry allowed, it clears the session and
calls executeInterceptedQuery once more, directly, so the second
outcome surfaces as is; any other failure is rethrown at once. -/
def clientQuery {T : Type} (retry : Bool) (env : QueryEnv T) : QueryRun T :=
  match env.getPage1 with
  | Except.error m => ⟨Except.error m, 0, false⟩
  | Except.ok _ =>
    match env.exec1 with
    | Except.ok v => ⟨Except.ok v, 1, false⟩
    | Except.error m =>
      if retry && isDeadTargetMsg m then
        match env.getPage2 with
        | Except.error m2 => ⟨Except.error m2, 1, true⟩
        | Except.ok _ => ⟨env.exec2, 2, true⟩
      else ⟨Except.error m, 1, false⟩

/-! ## Fresh-login retry loop (index.ts lines 113-125 and 133-194) -/

/-- The error message thrown after exhausting the login retries,
index.ts line 124. -/
def LOGIN_FAILED_MESSAGE : String :=
  "Login failed after " ++ toString MAX_LOGIN_RETRIES ++
    " attempts. Check credentials and 2Captcha balance."

/-- Outcome of one FarmersDogClient.login() call, seen from the retry
loop at index.ts lines 117-123: a page (truthy return), null (recoverable
failure), or a thrown error (caught and logged by the loop). -/
inductive LoginOutcome where
  | success
  | nullResult
  | threw (msg : String)
deriving DecidableEq

/-- The browser-resource bookkeeping state mutated by login(): the
global activeBrowser and activePage handles, plus ghost lists of the
browser connections opened and closed so far (attempt number n opens
browser n). -/
structure LoginState where
  activeBrowser : Option Nat
  activePage : Option Nat
  opened : List Nat
  closed : List Nat
deriving DecidableEq

/-- The resource effects at the top of login() (index.ts lines 133-138)
for attempt number i: close the current activeBrowser if one is set
(the handle is not nulled), connect a fresh browser, and store browser
and page in the globals. -/
def loginOnce (st : LoginState) (i : Nat) : LoginState :=
  let closed2 := match st.activeBrowser with
    | some b => st.closed ++ [b]
    | none => st.closed
  ⟨some i, some i, st.opened ++ [i], closed2⟩

/-- Result of running the login retry loop: the loop result, the final
resource state, and the number of login() invocations made. -/
structure LoopResult where
  result : Except String Unit
  final : LoginState
  calls : Nat
deriving DecidableEq

/-- The retry loop at index.ts lines 117-123: for i = 1..MAX_LOGIN_RETRIES
call login(); a page returns it, null and thrown errors both continue the
loop; exhaustion throws the login-failed error.  Fuel is the number of
iterations left. -/
def loginLoop (outcomes : Nat → LoginOutcome) :
    LoginState → Nat → Nat → LoopResult
  | st, _, 0 => ⟨Except.error LOGIN_FAILED_MESSAGE, st, 0⟩
  | st, i, fuel + 1 =>
    let st2 := loginOnce st i
    match outcomes i with
    | LoginOutcome.success => ⟨Except.ok (), st2, 1⟩
    | LoginOutcome.nullResult =>
      let r := loginLoop outcomes st2 (i + 1) fuel
      ⟨r.result, r.final, r.calls + 1⟩
    | LoginOutcome.threw _ =>
      let r := loginLoop outcomes st2 (i + 1) fuel
      ⟨r.result, r.final, r.calls + 1⟩

/-- The fresh-login step of getPage, starting at attempt 1 with the full
retry budget. -/
def freshLogin (outcomes : Nat → LoginOutcome) (st : LoginState) : LoopResult :=
  loginLoop outcomes st 1 MAX_LOGIN_RETRIES

/-! ## Turnstile solver (index.ts lines 196-251) -/

/-- Poll interval of the natural-wait loop: waitForTimeout(2000) at
index.ts line 248. -/
def TURNSTILE_POLL_INTERVAL_MS : Nat := 2000

/-- Iteration bound of the natural-wait loop at index.ts line 243. -/
def TURNSTILE_MAX_POLLS : Nat := 30

/-- How the 2Captcha branch of solveTurnstile (index.ts lines 197-239)
ended: no solver configured (branch skipped); token injected and the
submit control observed enabled (early true return at line 234); token
injected but the control still disabled (fall through at line 235); or
an exception anywhere in the branch (caught at line 236, fall
through). -/
inductive CaptchaOutcome where
  | notConfigured
  | solvedEnabled
  | solvedStillDisabled
  | threw
deriving DecidableEq

/-- The natural-wait loop at index.ts lines 243-249, started at
iteration i with the given fuel: at each iteration evaluate the
submit-control enablement; when enabled return true having waited
i * 2000 ms inside the loop so far; otherwise wait 2000 ms and
continue; on exhaustion return false, with 30 * 2000 ms waited.  The
second component is the total waitForTimeout time spent in the loop
before returning. -/
def naturalWaitFrom (enabled : Nat → Bool) : Nat → Nat → Bool × Nat
  | i, 0 => (false, i * TURNSTILE_POLL_INTERVAL_MS)
  | i, fuel + 1 =>
    if enabled i then (true, i * TURNSTILE_POLL_INTERVAL_MS)
    else naturalWaitFrom enabled (i + 1) fuel

/-- The natural-wait loop from its start. -/
def naturalWait (enabled : Nat → Bool) : Bool × Nat :=
  naturalWaitFrom enabled 0 TURNSTILE_MAX_POLLS

/-- solveTurnstile from index.ts lines 196-251: the early return when
the 2Captcha branch left the control enabled, otherwise the pure
polling fallback.  The second component is the elapsed polling wait
(none when the fallback never ran). -/
def solveTurnstile (co : CaptchaOutcome) (enabled : Nat → Bool) :
    Bool × Option Nat :=
  match co with
  | CaptchaOutcome.solvedEnabled => (true, none)
  | _ =>
    let r := naturalWait enabled
    (r.1, some r.2)

/-! ## Session acquisition (index.ts lines 92-131, 24-38) -/

/-- The process-global mutable state read and written by getPage: the
activePage and routeInstalled globals (index.ts lines 18-20), the
activeBrowser global, and the session file contents (none when the file
does not exist). -/
structure SessionGlobals where
  activeBrowser : Option Nat
  activePage : Option Nat
  routeInstalled : Bool
  sessionFile : Option FileContent
deriving DecidableEq

/-- The file effect of clearSession (index.ts line 35): an existing
file is overwritten with an empty record; a missing file stays
missing. -/
def clearFile : Option FileContent → Option FileContent
  | none => none
  | some _ => some EMPTY_RECORD

/-- clearSession from index.ts lines 34-38: overwrite the session file
with an empty record, null the page handle, drop the route flag, and
close and null the active browser.  Returns the new globals and the
browser that was closed, if one was set. -/
def clearSession (g : SessionGlobals) : SessionGlobals × Option Nat :=
  (⟨none, none, false, clearFile g.sessionFile⟩, g.activeBrowser)

/-- The error message thrown when fresh login is reached without the
four credential fields, index.ts line 115. -/
def MISSING_CREDS_MESSAGE : String :=
  "Missing creds: FARMERSDOG_EMAIL, FARMERSDOG_PASSWORD, BROWSERBASE_API_KEY, BROWSERBASE_PROJECT_ID"

/-- Ghost identifier of the browser connection opened by
connectOverCDP in the reconnect step (index.ts line 101), and of the
page found in it. -/
def RECONNECT_BROWSER : Nat := 100

/-- Ghost identifier of the page adopted by the reconnect step. -/
def RECONNECT_PAGE : Nat := 100

/-- Models the wsUrl getter (index.ts lines 88-90); the embedded
credentials are irrelevant to the claims, so an opaque constant. -/
def WS_URL : String := "wss://connect.browserbase.com"

/-- Behavior of the collaborators during one getPage call: whether the
in-memory liveness probe (index.ts line 95) succeeds, the current
clock, the reconnect step outcomes (index.ts lines 100-111), whether
all four credential fields are present, and the login() outcomes for
the fresh-login loop. -/
structure ReconnectEnv where
  connectOk : Bool
  pagePresent : Bool
  pageUrl : String
  probeOk : Bool

structure GetPageEnv where
  now : Int
  inMemProbeOk : Bool
  reconnect : ReconnectEnv
  hasCreds : Bool
  loginOutcomes : Nat → LoginOutcome

/-- Observable outcome of one getPage call: the result, the final
globals, how many connectOverCDP reconnect attempts were made, how many
login() calls were made, the globals at the moment the reconnect step
was entered and at the moment the fresh-login step was entered (none
when the step was never reached), the ghost list of browser
connections closed during the call, and — when the reconnect step
opened a browser that did not become the session — whether that
browser was closed. -/
structure GetPageRun where
  result : Except String Unit
  globals : SessionGlobals
  connectAttempts : Nat
  loginCalls : Nat
  globalsAtReconnect : Option SessionGlobals
  globalsAtLogin : Option SessionGlobals
  closedBrowsers : List Nat
  reconnectBrowserClosed : Option Bool
deriving DecidableEq

/-- Step 3 of getPage (index.ts lines 113-125): require the four
credential fields, then run the login retry loop.  A successful login
(index.ts lines 190-193) persists a fresh descriptor and installs the
routes; a failed loop leaves whatever the attempts did to the
globals. -/
def freshLoginStep (g : SessionGlobals) (closed : List Nat)
    (cAtt : Nat) (rbc : Option Bool) (env : GetPageEnv) : GetPageRun :=
  if env.hasCreds = false then
    ⟨Except.error MISSING_CREDS_MESSAGE, g, cAtt, 0, none, some g, closed, rbc⟩
  else
    let r := freshLogin env.loginOutcomes ⟨g.activeBrowser, g.activePage, [], []⟩
    let g2 : SessionGlobals :=
      match r.result with
      | Except.ok _ =>
        ⟨r.final.activeBrowser, r.final.activePage, true,
          some (FileContent.record (some WS_URL) (some env.now))⟩
      | Except.error _ =>
        ⟨r.final.activeBrowser, r.final.activePage, g.routeInstalled, g.sessionFile⟩
    ⟨r.result, g2, cAtt, r.calls, none, some g,
      closed ++ r.final.closed, rbc⟩

/-- Step 2 of getPage (index.ts lines 97-112): load the descriptor; if
present, connect to its endpoint, look for a page already inside the
app, probe it, adopt it and install routes on success; on any failure
in the try block the catch swallows the error, clearSession runs, and
control falls through to the fresh-login step.  Only the
page-missing-or-outside-app path closes the just-connected browser
(index.ts line 110); a thrown probe skips that close. -/
def reconnectStep (g : SessionGlobals) (closed : List Nat)
    (env : GetPageEnv) : GetPageRun :=
  let after : GetPageRun :=
    match loadSession env.now g.sessionFile with
    | none => freshLoginStep g closed 0 none env
    | some _ =>
      if env.reconnect.connectOk then
        if env.reconnect.pagePresent && strIncludes env.reconnect.pageUrl "/app/" then
          if env.reconnect.probeOk then
            ⟨Except.ok (),
              ⟨some RECONNECT_BROWSER, some RECONNECT_PAGE, true, g.sessionFile⟩,
              1, 0, none, none, closed, some false⟩
          else
            let c := clearSession g
            freshLoginStep c.1 (closed ++ c.2.toList) 1 (some false) env
        else
          let c := clearSession g
          freshLoginStep c.1 ((closed ++ [RECONNECT_BROWSER]) ++ c.2.toList) 1
            (some true) env
      else
        let c := clearSession g
        freshLoginStep c.1 (closed ++ c.2.toList) 1 none env
  { after with globalsAtReconnect := some g }

/-- getPage from index.ts lines 92-125.  Step 1: if a page handle is
held and the routes are installed, probe it; success returns it
unchanged, a thrown probe runs clearSession and control falls through
to the reconnect step. -/
def getPage (g0 : SessionGlobals) (env : GetPageEnv) : GetPageRun :=
  if g0.activePage.isSome && g0.routeInstalled then
    if env.inMemProbeOk then
      ⟨Except.ok (), g0, 0, 0, none, none, [], none⟩
    else
      let c := clearSession g0
      reconnectStep c.1 c.2.toList env
  else
    reconnectStep g0 [] env

/-! ## Concrete example values used by the witness theorems -/

/-- A concrete pending query targeting the standard GraphQL endpoint. -/
def pqEx : PendingQuery := ⟨GRAPHQL_URL, "query q", "null"⟩

/-- Broker state of a call before its swap happened. -/
def stPreEx : BrokerState := initBroker GRAPHQL_URL "query q" "null"

/-- Broker state of the same call right after its swap happened. -/
def stPostEx : BrokerState :=
  runBroker stPreEx [BrokerEvent.request CUSTOMER_GRAPHQL_URL]

/-- A concrete event trace in which the swap fires and a matching
response then arrives. -/
def traceEx : List BrokerEvent :=
  [BrokerEvent.request CUSTOMER_GRAPHQL_URL,
   BrokerEvent.response GRAPHQL_URL (RespBody.parsed (JsVal.vobj 0))]

/-- Globals holding a stale browser handle and a fresh-enough persisted
descriptor, with no usable in-memory page. -/
def g0Ex : SessionGlobals :=
  ⟨some 7, none, false, some (FileContent.record (some "ws") (some 0))⟩

/-- Globals holding a live-looking in-memory session. -/
def g1Ex : SessionGlobals :=
  ⟨some 7, some 7, true, some (FileContent.record (some "ws") (some 0))⟩

/-- Environment in which the reconnect liveness probe throws. -/
def envProbeThrowEx : GetPageEnv :=
  ⟨1000, true, ⟨true, true, "https://www.thefarmersdog.com/app/home", false⟩,
    true, fun _ => LoginOutcome.success⟩

/-- Environment in which the in-memory probe throws and no valid
descriptor survives the subsequent clear. -/
def envMemThrowEx : GetPageEnv :=
  ⟨1000, false, ⟨true, true, "x", false⟩, true, fun _ => LoginOutcome.success⟩

/-- Environment in which the in-memory probe succeeds, so the held
session is returned unchanged. -/
def envOkEx : GetPageEnv :=
  ⟨1000, true, ⟨false, false, "x", false⟩, false, fun _ => LoginOutcome.nullResult⟩

/-! ## Helper lemmas -/

theorem respListener_swapped (st : BrokerState) (u : String) (b : RespBody) :
    (respListener st u b).swapped = st.swapped := by
  unfold respListener
  repeat' split
  all_goals rfl

theorem respListener_outcome_unchanged (st : BrokerState) (u : String)
    (b : RespBody)
    (h : strIncludes u HOST_MARKER = false ∨ b = RespBody.unparseable ∨
      ∀ d, b = RespBody.parsed d → JsVal.truthy d = false) :
    (respListener st u b).outcome = st.outcome := by
  rcases h with hm | hb | hd
  · simp [respListener, hm]
  · subst hb
    simp [respListener]
  · cases b with
    | unparseable => simp [respListener]
    | parsed d => simp [respListener, hd d rfl]

theorem brokerStep_response_preswap (st : BrokerState) (u : String)
    (b : RespBody) (h : st.swapped = false) :
    brokerStep st (BrokerEvent.response u b) = st := by
  have hr : respListener st u b = st := by
    unfold respListener
    simp [h]
  simp [brokerStep, hr]

theorem brokerStep_swap_flip (st : BrokerState) (e : BrokerEvent)
    (h0 : st.swapped = false) (h1 : (brokerStep st e).swapped = true) :
    ∃ u, e = BrokerEvent.request u ∧ strIncludes u HOST_MARKER = true := by
  cases e with
  | request u =>
    refine ⟨u, rfl, ?_⟩
    by_cases hm : strIncludes u HOST_MARKER = true
    · exact hm
    · exfalso
      have hm' : strIncludes u HOST_MARKER = false := by
        simpa using hm
      cases hp : st.pending with
      | none =>
        simp [brokerStep, handleRoute, hp, h0] at h1
      | some pq =>
        simp [brokerStep, handleRoute, hp, hm', h0] at h1
  | response u b =>
    exfalso
    by_cases hl : st.listenerAttached
    · have := respListener_swapped st u b
      simp [brokerStep, hl] at h1
      rw [this] at h1
      exact absurd h1 (by simp [h0])
    · simp [brokerStep, hl] at h1
      exact absurd h1 (by simp [h0])
  | timerFires =>
    exfalso
    by_cases ht : st.timerActive
    · simp [brokerStep, ht] at h1
      exact absurd h1 (by simp [h0])
    · simp [brokerStep, ht] at h1
      exact absurd h1 (by simp [h0])

theorem brokerStep_ok_swapped (st : BrokerState) (e : BrokerEvent)
    (h : ∀ d, st.outcome = some (Except.ok d) → st.swapped = true) :
    ∀ d, (brokerStep st e).outcome = some (Except.ok d) →
      (brokerStep st e).swapped = true := by
  intro d hd
  cases e with
  | request u =>
    simp only [brokerStep] at hd ⊢
    rw [h d hd]
    simp
  | response u b =>
    by_cases hl : st.listenerAttached
    · simp only [brokerStep, hl, if_true] at hd ⊢
      rw [respListener_swapped]
      by_cases hs : st.swapped = false
      · have hst : respListener st u b = st := by
          unfold respListener
          simp [hs]
        rw [hst] at hd
        exact h d hd
      · simpa using hs
    · simp only [brokerStep, hl, if_false] at hd ⊢
      exact h d hd
  | timerFires =>
    by_cases ht : st.timerActive
    · simp only [brokerStep, ht, if_true] at hd ⊢
      have : st.outcome = some (Except.ok d) := by
        cases ho : st.outcome with
        | none => simp [settleErr, ho] at hd
        | some x => simpa [settleErr, ho] using hd
      exact h d this
    · simp only [brokerStep, ht, if_false] at hd ⊢
      exact h d hd

theorem runBroker_ok_swapped (evs : List BrokerEvent) :
    ∀ st : BrokerState,
      (∀ d, st.outcome = some (Except.ok d) → st.swapped = true) →
      ∀ d, (runBroker st evs).outcome = some (Except.ok d) →
        (runBroker st evs).swapped = true := by
  induction evs with
  | nil => intro st h; exact h
  | cons e rest ih =>
    intro st h
    exact ih (brokerStep st e) (brokerStep_ok_swapped st e h)

theorem runBroker_flip (evs : List BrokerEvent) :
    ∀ st : BrokerState, st.swapped = false →
      (runBroker st evs).swapped = true →
      ∃ i, i < evs.length ∧
        (runBroker st (evs.take i)).swapped = false ∧
        (runBroker st (evs.take (i + 1))).swapped = true ∧
        ∃ u, evs.get? i = some (BrokerEvent.request u) ∧
          strIncludes u HOST_MARKER = true := by
  induction evs with
  | nil =>
    intro st h0 h1
    exact absurd (h0 ▸ h1) (by simp)
  | cons e rest ih =>
    intro st h0 h1
    by_cases hs : (brokerStep st e).swapped = true
    · obtain ⟨u, he, hm⟩ := brokerStep_swap_flip st e h0 hs
      exact ⟨0, by simp, h0, hs, u, by simp [he], hm⟩
    · have hs' : (brokerStep st e).swapped = false := by simpa using hs
      obtain ⟨i, hi, ha, hb, u, hu, hm⟩ := ih (brokerStep st e) hs' h1
      exact ⟨i + 1, by simpa using Nat.succ_lt_succ hi, ha, hb, u, hu, hm⟩

theorem loginLoop_fail_step (outcomes : Nat → LoginOutcome) (st : LoginState)
    (i fuel : Nat) (h : outcomes i ≠ LoginOutcome.success) :
    loginLoop outcomes st i (fuel + 1) =
      ⟨(loginLoop outcomes (loginOnce st i) (i + 1) fuel).result,
       (loginLoop outcomes (loginOnce st i) (i + 1) fuel).final,
       (loginLoop outcomes (loginOnce st i) (i + 1) fuel).calls + 1⟩ := by
  cases ho : outcomes i with
  | success => exact absurd ho h
  | nullResult => simp [loginLoop, ho]
  | threw m => simp [loginLoop, ho]

theorem loginLoop_ok_page (outcomes : Nat → LoginOutcome) :
    ∀ fuel st i, (loginLoop outcomes st i fuel).result = Except.ok () →
      (loginLoop outcomes st i fuel).final.activePage.isSome = true := by
  intro fuel
  induction fuel with
  | zero =>
    intro st i h
    simp [loginLoop] at h
  | succ n ih =>
    intro st i h
    cases ho : outcomes i with
    | success => simp [loginLoop, ho, loginOnce]
    | nullResult =>
      rw [loginLoop_fail_step outcomes st i n (by simp [ho])] at h ⊢
      exact ih (loginOnce st i) (i + 1) h
    | threw m =>
      rw [loginLoop_fail_step outcomes st i n (by simp [ho])] at h ⊢
      exact ih (loginOnce st i) (i + 1) h

theorem freshLoginStep_closed_mono (g : SessionGlobals) (closed : List Nat)
    (cAtt : Nat) (rbc : Option Bool) (env : GetPageEnv) :
    ∃ tail, (freshLoginStep g closed cAtt rbc env).closedBrowsers =
      closed ++ tail := by
  unfold freshLoginStep
  by_cases hc : env.hasCreds = false
  · exact ⟨[], by simp [hc]⟩
  · refine ⟨(freshLogin env.loginOutcomes
      ⟨g.activeBrowser, g.activePage, [], []⟩).final.closed, ?_⟩
    simp [hc]

theorem freshLoginStep_at_login (g : SessionGlobals) (closed : List Nat)
    (cAtt : Nat) (rbc : Option Bool) (env : GetPageEnv) :
    (freshLoginStep g closed cAtt rbc env).globalsAtLogin = some g ∧
    (freshLoginStep g closed cAtt rbc env).connectAttempts = cAtt := by
  unfold freshLoginStep
  by_cases hc : env.hasCreds = false
  · simp [hc]
  · simp [hc]

theorem naturalWaitFrom_all_disabled (enabled : Nat → Bool) :
    ∀ fuel i, (∀ j, i ≤ j → j < i + fuel → enabled j = false) →
      naturalWaitFrom enabled i fuel =
        (false, (i + fuel) * TURNSTILE_POLL_INTERVAL_MS) := by
  intro fuel
  induction fuel with
  | zero => intro i _; simp [naturalWaitFrom]
  | succ n ih =>
    intro i h
    have hi : enabled i = false := h i (Nat.le_refl i) (by omega)
    rw [naturalWaitFrom, hi]
    simp only [Bool.false_eq_true, if_false]
    rw [ih (i + 1) (by intro j h1 h2; exact h j (by omega) (by omega))]
    have : i + 1 + n = i + (n + 1) := by omega
    rw [this]

theorem naturalWaitFrom_first_enabled (enabled : Nat → Bool) :
    ∀ fuel i N, i ≤ N → N < i + fuel → enabled N = true →
      (∀ j, j < N → enabled j = false) →
      naturalWaitFrom enabled i fuel =
        (true, N * TURNSTILE_POLL_INTERVAL_MS) := by
  intro fuel
  induction fuel with
  | zero => intro i N h1 h2 _ _; omega
  | succ n ih =>
    intro i N h1 h2 hN hbefore
    by_cases hiN : i = N
    · subst hiN
      rw [naturalWaitFrom, hN]
      simp
    · have hi : enabled i = false := hbefore i (by omega)
      rw [naturalWaitFrom, hi]
      simp only [Bool.false_eq_true, if_false]
      exact ih (i + 1) N (by omega) (by omega) hN hbefore

/-! ## Claim theorems -/

/-- C1: every request handled while a PendingQuery is set and the url
contains the protected-host marker is forwarded with its body replaced
by the serialized query and variables of the caller, while a request
handled with no PendingQuery set, or whose url does not contain the
marker, is forwarded completely unmodified; the two forwarding actions
are mutually exclusive. -/
theorem c1_swap_or_passthrough_never_both (pending : Option PendingQuery)
    (url : String) :
    (∀ pq, pending = some pq → strIncludes url HOST_MARKER = true →
      (handleRoute pending url).action =
        RouteAction.continueSwapped pq.targetUrl
          (serializeBody pq.query pq.vars)) ∧
    (pending = none →
      (handleRoute pending url).action = RouteAction.continuePassthrough) ∧
    (strIncludes url HOST_MARKER = false →
      (handleRoute pending url).action = RouteAction.continuePassthrough) ∧
    ¬((handleRoute pending url).action = RouteAction.continuePassthrough ∧
      ∃ u b, (handleRoute pending url).action =
        RouteAction.continueSwapped u b) := by
  refine ⟨?_, ?_, ?_, ?_⟩
  · intro pq hpq hm
    subst hpq
    simp [handleRoute, hm]
  · intro hp
    subst hp
    simp [handleRoute]
  · intro hm
    cases pending with
    | none => simp [handleRoute]
    | some pq => simp [handleRoute, hm]
  · rintro ⟨h1, u, b, h2⟩
    rw [h1] at h2
    exact RouteAction.noConfusion h2

/-- Witness for C1: a request to the customer endpoint is swapped while
the query slot is pending, and a request to the login page passes
through untouched. -/
theorem c1_swap_or_passthrough_never_both_witness :
    (handleRoute (some pqEx) CUSTOMER_GRAPHQL_URL).action =
      RouteAction.continueSwapped GRAPHQL_URL
        (serializeBody "query q" "null") ∧
    (handleRoute (some pqEx) "https://www.thefarmersdog.com/login").action =
      RouteAction.continuePassthrough :=
  ⟨(c1_swap_or_passthrough_never_both (some pqEx) CUSTOMER_GRAPHQL_URL).1
      pqEx rfl (by decide),
   (c1_swap_or_passthrough_never_both (some pqEx)
      "https://www.thefarmersdog.com/login").2.2.1 (by decide)⟩

/-- C10: the match made by the route handler is decided by the host-marker
substring alone; a matching request consumes the slot and is forwarded
with its url rewritten to the pending target endpoint, independently
of the url the request originally carried. -/
theorem c10_host_substring_match_and_url_rewrite (pq : PendingQuery)
    (url : String) :
    (strIncludes url HOST_MARKER = true →
      handleRoute (some pq) url =
        ⟨none, RouteAction.continueSwapped pq.targetUrl
          (serializeBody pq.query pq.vars), true⟩) ∧
    ((∃ u b, (handleRoute (some pq) url).action =
        RouteAction.continueSwapped u b) ↔
      strIncludes url HOST_MARKER = true) ∧
    (∀ u b, (handleRoute (some pq) url).action =
        RouteAction.continueSwapped u b → u = pq.targetUrl) := by
  by_cases hm : strIncludes url HOST_MARKER = true
  · refine ⟨fun _ => by simp [handleRoute, hm], ?_, ?_⟩
    · simp [handleRoute, hm]
    · intro u b h
      simp [handleRoute, hm] at h
      exact h.1.symm
  · have hm' : strIncludes url HOST_MARKER = false := by simpa using hm
    refine ⟨fun h => absurd h hm, ?_, ?_⟩
    · simp [handleRoute, hm']
    · intro u b h
      simp [handleRoute, hm'] at h

/-- Witness for C10: a request whose url is the customer-graphql
endpoint is swapped and redirected to the standard graphql endpoint of
the pending query, a different path. -/
theorem c10_host_substring_match_and_url_rewrite_witness :
    handleRoute (some pqEx) CUSTOMER_GRAPHQL_URL =
      ⟨none, RouteAction.continueSwapped GRAPHQL_URL
        (serializeBody "query q" "null"), true⟩ :=
  (c10_host_substring_match_and_url_rewrite pqEx CUSTOMER_GRAPHQL_URL).1
    (by decide)

/-- C5: the session store read path returns the saved record exactly
when the file exists, parses to a record with a savedAt stamp, and the
age is strictly under the 8 hour TTL; at age TTL - 1 ms the record is
returned, at TTL + 1 ms it is not, any age at or past the TTL is never
returned, and a missing or malformed file yields none. -/
theorem c5_loadSession_ttl (now : Int) (file : Option FileContent) :
    ((loadSession now file).isSome = true ↔
      ∃ ws t, file = some (FileContent.record ws (some t)) ∧
        now - t < SESSION_TTL_MS) ∧
    (∀ ws t, now - t = SESSION_TTL_MS - 1 →
      loadSession now (some (FileContent.record ws (some t))) = some (ws, t)) ∧
    (∀ ws t, now - t = SESSION_TTL_MS + 1 →
      loadSession now (some (FileContent.record ws (some t))) = none) ∧
    (∀ ws t, SESSION_TTL_MS ≤ now - t →
      loadSession now (some (FileContent.record ws (some t))) = none) ∧
    loadSession now none = none ∧
    loadSession now (some FileContent.malformed) = none ∧
    (∀ d, loadSession now file = some d →
      file = some (FileContent.record d.1 (some d.2)) ∧
        now - d.2 < SESSION_TTL_MS) := by
  refine ⟨?_, ?_, ?_, ?_, by simp [loadSession], by simp [loadSession], ?_⟩
  · constructor
    · intro h
      match file with
      | none => simp [loadSession] at h
      | some FileContent.malformed => simp [loadSession] at h
      | some (FileContent.record ws none) => simp [loadSession] at h
      | some (FileContent.record ws (some t)) =>
        refine ⟨ws, t, rfl, ?_⟩
        by_contra hlt
        simp [loadSession, if_neg hlt] at h
    · rintro ⟨ws, t, hf, hlt⟩
      subst hf
      simp [loadSession, hlt]
  · intro ws t h
    have hlt : now - t < SESSION_TTL_MS := by omega
    simp [loadSession, hlt]
  · intro ws t h
    have hlt : ¬(now - t < SESSION_TTL_MS) := by omega
    simp [loadSession, hlt]
  · intro ws t h
    have hlt : ¬(now - t < SESSION_TTL_MS) := by omega
    simp [loadSession, hlt]
  · intro d h
    match file with
    | none => simp [loadSession] at h
    | some FileContent.malformed => simp [loadSession] at h
    | some (FileContent.record ws none) => simp [loadSession] at h
    | some (FileContent.record ws (some t)) =>
      by_cases hlt : now - t < SESSION_TTL_MS
      · simp [loadSession, hlt] at h
        cases h
        exact ⟨rfl, hlt⟩
      · simp [loadSession, hlt] at h

/-- Witness for C5 at the two boundary ages and at a stale age. -/
theorem c5_loadSession_ttl_witness :
    loadSession (SESSION_TTL_MS - 1) (some (FileContent.record (some "e") (some 0))) =
      some (some "e", 0) ∧
    loadSession (SESSION_TTL_MS + 1) (some (FileContent.record (some "e") (some 0))) =
      none ∧
    loadSession (2 * SESSION_TTL_MS) (some (FileContent.record (some "e") (some 0))) =
      none :=
  ⟨(c5_loadSession_ttl (SESSION_TTL_MS - 1) none).2.1 (some "e") 0 (by decide),
   (c5_loadSession_ttl (SESSION_TTL_MS + 1) none).2.2.1 (some "e") 0 (by decide),
   (c5_loadSession_ttl (2 * SESSION_TTL_MS) none).2.2.2.1 (some "e") 0 (by decide)⟩

/-- C4: with retry allowed, a first execution failure in the
dead-target message class clears the session and invokes the executor
exactly once more, surfacing whatever the second attempt produced, even
another dead-target failure; a first failure outside the class, or any
failure with retry disabled, propagates at once with a single executor
call and no session clear. -/
theorem c4_query_retry_once {T : Type} (env : QueryEnv T) :
    (∀ m, env.getPage1 = Except.ok () → env.exec1 = Except.error m →
      isDeadTargetMsg m = true → env.getPage2 = Except.ok () →
      clientQuery true env = ⟨env.exec2, 2, true⟩) ∧
    (∀ m, env.getPage1 = Except.ok () → env.exec1 = Except.error m →
      isDeadTargetMsg m = false →
      clientQuery true env = ⟨Except.error m, 1, false⟩) ∧
    (∀ m, env.getPage1 = Except.ok () → env.exec1 = Except.error m →
      clientQuery false env = ⟨Except.error m, 1, false⟩) := by
  obtain ⟨gp1, e1, gp2, e2⟩ := env
  refine ⟨?_, ?_, ?_⟩
  · intro m h1 h2 h3 h4
    cases h1
    cases h2
    cases h4
    simp [clientQuery, h3]
  · intro m h1 h2 h3
    cases h1
    cases h2
    simp [clientQuery, h3]
  · intro m h1 h2
    cases h1
    cases h2
    simp [clientQuery]

/-- Witness for C4: both attempts fail with dead-target messages; the
second failure surfaces after exactly two executor calls. -/
theorem c4_query_retry_once_witness :
    clientQuery true
      (⟨Except.ok (), Except.error "Target closed", Except.ok (),
        Except.error "Query timeout (30s)"⟩ : QueryEnv Bool) =
      ⟨Except.error "Query timeout (30s)", 2, true⟩ :=
  (c4_query_retry_once
    (⟨Except.ok (), Except.error "Target closed", Except.ok (),
      Except.error "Query timeout (30s)"⟩ : QueryEnv Bool)).1
    "Target closed" rfl rfl (by decide) rfl

/-- C6: when every login attempt fails (null or thrown), the login
routine is invoked exactly MAX_LOGIN_RETRIES times and the loop then
fails with the login-failed error, whose text carries the attempt
count. -/
theorem c6_login_retry_ceiling (outcomes : Nat → LoginOutcome)
    (st : LoginState) (h : ∀ i, outcomes i ≠ LoginOutcome.success) :
    (freshLogin outcomes st).calls = MAX_LOGIN_RETRIES ∧
    (freshLogin outcomes st).result = Except.error LOGIN_FAILED_MESSAGE ∧
    strIncludes LOGIN_FAILED_MESSAGE (toString MAX_LOGIN_RETRIES) = true := by
  have e1 := loginLoop_fail_step outcomes st 1 2 (h 1)
  have e2 := loginLoop_fail_step outcomes (loginOnce st 1) 2 1 (h 2)
  have e3 := loginLoop_fail_step outcomes (loginOnce (loginOnce st 1) 2) 3 0 (h 3)
  norm_num at e1 e2 e3
  refine ⟨?_, ?_, by decide⟩
  · show (loginLoop outcomes st 1 3).calls = 3
    rw [e1, e2, e3]
    simp [loginLoop]
  · show (loginLoop outcomes st 1 3).result = Except.error LOGIN_FAILED_MESSAGE
    rw [e1, e2, e3]
    simp [loginLoop]

/-- Witness for C6: all three attempts return null, the loop makes
exactly three login calls and raises the login-failed error. -/
theorem c6_login_retry_ceiling_witness :
    (freshLogin (fun _ => LoginOutcome.nullResult)
      ⟨some 7, some 7, [], []⟩).calls = MAX_LOGIN_RETRIES ∧
    (freshLogin (fun _ => LoginOutcome.nullResult)
      ⟨some 7, some 7, [], []⟩).result = Except.error LOGIN_FAILED_MESSAGE := by
  have h := c6_login_retry_ceiling (fun _ => LoginOutcome.nullResult)
    ⟨some 7, some 7, [], []⟩ (fun _ h => LoginOutcome.noConfusion h)
  exact ⟨h.1, h.2.1⟩

/-- C8 counterexample: starting with no open browser, three
null-returning login attempts open browsers 1, 2, 3; when the
login-failed error is raised, browser 3 — opened by the final failed
attempt — has not been closed, so the final failed attempt did not
tear down the browser resources it opened before its failure was
reported. -/
theorem c8_final_attempt_browser_left_open :
    (freshLogin (fun _ => LoginOutcome.nullResult)
      ⟨none, none, [], []⟩).result = Except.error LOGIN_FAILED_MESSAGE ∧
    3 ∈ (freshLogin (fun _ => LoginOutcome.nullResult)
      ⟨none, none, [], []⟩).final.opened ∧
    3 ∉ (freshLogin (fun _ => LoginOutcome.nullResult)
      ⟨none, none, [], []⟩).final.closed ∧
    (freshLogin (fun _ => LoginOutcome.nullResult)
      ⟨none, none, [], []⟩).final.activeBrowser = some 3 := by
  decide

/-- C8 amended: the browser connection of a failed login attempt is closed
only at the start of the next attempt, if there is one; when every
attempt fails, the browsers of attempts 1 and 2 are closed, while the
browser opened by the final attempt remains open (still held in
activeBrowser) when the login-failed error is raised. -/
theorem c8_amended_teardown_deferred (outcomes : Nat → LoginOutcome)
    (h : ∀ i, outcomes i ≠ LoginOutcome.success) :
    (freshLogin outcomes ⟨none, none, [], []⟩).final.opened = [1, 2, 3] ∧
    (freshLogin outcomes ⟨none, none, [], []⟩).final.closed = [1, 2] ∧
    (freshLogin outcomes ⟨none, none, [], []⟩).final.activeBrowser = some 3 ∧
    3 ∉ (freshLogin outcomes ⟨none, none, [], []⟩).final.closed := by
  have e1 := loginLoop_fail_step outcomes ⟨none, none, [], []⟩ 1 2 (h 1)
  have e2 := loginLoop_fail_step outcomes (loginOnce ⟨none, none, [], []⟩ 1) 2 1 (h 2)
  have e3 := loginLoop_fail_step outcomes
    (loginOnce (loginOnce ⟨none, none, [], []⟩ 1) 2) 3 0 (h 3)
  norm_num at e1 e2 e3
  refine ⟨?_, ?_, ?_, ?_⟩ <;>
  · show _
    unfold freshLogin MAX_LOGIN_RETRIES
    rw [e1, e2, e3]
    simp [loginLoop, loginOnce]

/-- Witness for C8 amended: all three attempts throw; browsers 1 and 2
end up closed, browser 3 stays open. -/
theorem c8_amended_teardown_deferred_witness :
    (freshLogin (fun _ => LoginOutcome.threw "boom")
      ⟨none, none, [], []⟩).final.closed = [1, 2] ∧
    (freshLogin (fun _ => LoginOutcome.threw "boom")
      ⟨none, none, [], []⟩).final.activeBrowser = some 3 := by
  have h := c8_amended_teardown_deferred (fun _ => LoginOutcome.threw "boom")
    (fun _ h => LoginOutcome.noConfusion h)
  exact ⟨h.2.1, h.2.2.1⟩

/-- C9: whenever the 2Captcha branch did not already leave the submit
control enabled, the solver falls back to pure polling with a 2000 ms
interval and a 30-iteration (60 s) ceiling; it returns true at the
first iteration N at which the control is enabled, having waited
exactly N scheduled intervals (0 only when N = 0), and returns false
exactly when all 30 iterations see the control disabled, having waited
the full 60 s. -/
theorem c9_turnstile_fallback_polling (co : CaptchaOutcome)
    (enabled : Nat → Bool) (hco : co ≠ CaptchaOutcome.solvedEnabled) :
    (∀ N, N < TURNSTILE_MAX_POLLS → enabled N = true →
      (∀ j, j < N → enabled j = false) →
      solveTurnstile co enabled =
        (true, some (N * TURNSTILE_POLL_INTERVAL_MS))) ∧
    ((∀ j, j < TURNSTILE_MAX_POLLS → enabled j = false) →
      solveTurnstile co enabled =
        (false, some (TURNSTILE_MAX_POLLS * TURNSTILE_POLL_INTERVAL_MS))) ∧
    TURNSTILE_MAX_POLLS * TURNSTILE_POLL_INTERVAL_MS = 60000 := by
  have hsolve : solveTurnstile co enabled =
      ((naturalWait enabled).1, some (naturalWait enabled).2) := by
    cases co with
    | notConfigured => rfl
    | solvedEnabled => exact absurd rfl hco
    | solvedStillDisabled => rfl
    | threw => rfl
  refine ⟨?_, ?_, by decide⟩
  · intro N h1 h2 h3
    have hw := naturalWaitFrom_first_enabled enabled TURNSTILE_MAX_POLLS 0 N
      (Nat.zero_le N) (by rw [Nat.zero_add]; exact h1) h2 h3
    rw [hsolve]
    unfold naturalWait
    rw [hw]
  · intro hall
    have hw := naturalWaitFrom_all_disabled enabled TURNSTILE_MAX_POLLS 0
      (by intro j _ hj2; exact hall j (by rw [Nat.zero_add] at hj2; exact hj2))
    rw [hsolve]
    unfold naturalWait
    rw [hw, Nat.zero_add]

/-- Witness for C9: after a solving-service exception, the control
becomes enabled at poll iteration 2 and the solver returns true with a
4000 ms wait; with the control never enabled the solver returns false
after the full 60 s. -/
theorem c9_turnstile_fallback_polling_witness :
    solveTurnstile CaptchaOutcome.threw (fun i => decide (i = 2)) =
      (true, some (2 * TURNSTILE_POLL_INTERVAL_MS)) ∧
    solveTurnstile CaptchaOutcome.notConfigured (fun _ => false) =
      (false, some (TURNSTILE_MAX_POLLS * TURNSTILE_POLL_INTERVAL_MS)) := by
  have h1 := c9_turnstile_fallback_polling CaptchaOutcome.threw
    (fun i => decide (i = 2)) (by decide)
  have h2 := c9_turnstile_fallback_polling CaptchaOutcome.notConfigured
    (fun _ => false) (by decide)
  exact ⟨h1.1 2 (by decide) (by decide) (by decide), h2.2.1 (by decide)⟩

/-- C2: the response observer leaves the state untouched for every
response processed before the swap; a resolved call implies that some
earlier event was a host-matching request at which the swapped flag
flipped from false to true (the swap happens-before the correlation);
once swapped, with the listener attached and the promise unsettled, the
first host-matching response with a truthy data payload resolves the
call with exactly that payload; and a response that does not match the
host or lacks a truthy data payload never changes the outcome. -/
theorem c2_swap_happens_before_correlation :
    (∀ st : BrokerState, ∀ u b, st.swapped = false →
      brokerStep st (BrokerEvent.response u b) = st) ∧
    (∀ tu q v evs d,
      (runBroker (initBroker tu q v) evs).outcome = some (Except.ok d) →
      ∃ i, i < evs.length ∧
        (runBroker (initBroker tu q v) (evs.take i)).swapped = false ∧
        (runBroker (initBroker tu q v) (evs.take (i + 1))).swapped = true ∧
        ∃ u, evs.get? i = some (BrokerEvent.request u) ∧
          strIncludes u HOST_MARKER = true) ∧
    (∀ st : BrokerState, ∀ u d, st.outcome = none → st.swapped = true →
      st.listenerAttached = true → strIncludes u HOST_MARKER = true →
      JsVal.truthy d = true →
      (brokerStep st (BrokerEvent.response u (RespBody.parsed d))).outcome =
        some (Except.ok d)) ∧
    (∀ st : BrokerState, ∀ u b,
      (strIncludes u HOST_MARKER = false ∨ b = RespBody.unparseable ∨
        ∀ d, b = RespBody.parsed d → JsVal.truthy d = false) →
      (brokerStep st (BrokerEvent.response u b)).outcome = st.outcome) := by
  refine ⟨brokerStep_response_preswap, ?_, ?_, ?_⟩
  · intro tu q v evs d hok
    have hinv : ∀ x, (initBroker tu q v).outcome = some (Except.ok x) →
        (initBroker tu q v).swapped = true := by
      intro x hx
      simp [initBroker] at hx
    have hsw := runBroker_ok_swapped evs (initBroker tu q v) hinv d hok
    exact runBroker_flip evs (initBroker tu q v) rfl hsw
  · intro st u d ho hs hl hm ht
    have hmm : ¬(strIncludes u HOST_MARKER = false) := by simp [hm]
    simp [brokerStep, hl, respListener, hs, hmm, ht, settleOk, ho]
  · intro st u b h
    by_cases hl : st.listenerAttached
    · simp only [brokerStep, hl, if_true]
      exact respListener_outcome_unchanged st u b h
    · simp [brokerStep, hl]

/-- Witness for C2 on concrete states and a concrete trace: a pre-swap
response is ignored; on the two-event trace request-then-response the
resolved payload is preceded by the swap at index 0; after the swap the
matching response resolves; and a non-matching response leaves the
outcome alone. -/
theorem c2_swap_happens_before_correlation_witness :
    brokerStep stPreEx
      (BrokerEvent.response GRAPHQL_URL (RespBody.parsed (JsVal.vobj 0))) =
      stPreEx ∧
    (∃ i, i < traceEx.length ∧
      (runBroker (initBroker GRAPHQL_URL "query q" "null")
        (traceEx.take i)).swapped = false ∧
      (runBroker (initBroker GRAPHQL_URL "query q" "null")
        (traceEx.take (i + 1))).swapped = true ∧
      ∃ u, traceEx.get? i = some (BrokerEvent.request u) ∧
        strIncludes u HOST_MARKER = true) ∧
    (brokerStep stPostEx
      (BrokerEvent.response GRAPHQL_URL (RespBody.parsed (JsVal.vobj 0)))).outcome =
      some (Except.ok (JsVal.vobj 0)) ∧
    (brokerStep stPostEx
      (BrokerEvent.response "https://www.thefarmersdog.com/app/home"
        (RespBody.parsed (JsVal.vobj 0)))).outcome = stPostEx.outcome := by
  refine ⟨?_, ?_, ?_, ?_⟩
  · exact c2_swap_happens_before_correlation.1 stPreEx GRAPHQL_URL
      (RespBody.parsed (JsVal.vobj 0)) (by decide)
  · exact c2_swap_happens_before_correlation.2.1 GRAPHQL_URL "query q" "null"
      traceEx (JsVal.vobj 0) (by decide)
  · exact c2_swap_happens_before_correlation.2.2.1 stPostEx GRAPHQL_URL
      (JsVal.vobj 0) (by decide) (by decide) (by decide) (by decide) (by decide)
  · exact c2_swap_happens_before_correlation.2.2.2 stPostEx
      "https://www.thefarmersdog.com/app/home"
      (RespBody.parsed (JsVal.vobj 0)) (Or.inl (by decide))

/-- C3 counterexample: when the 30 s timer fires on a call that saw no
matching response, the call fails with the query-timeout error and the
pending slot is cleared, but the response observer is still attached —
the dangling-listener half of the claim is false on the code. -/
theorem c3_timeout_leaves_listener_attached :
    (runBroker (initBroker GRAPHQL_URL "query q" "null")
      [BrokerEvent.timerFires]).outcome =
      some (Except.error QUERY_TIMEOUT_MESSAGE) ∧
    (runBroker (initBroker GRAPHQL_URL "query q" "null")
      [BrokerEvent.timerFires]).pending = none ∧
    (runBroker (initBroker GRAPHQL_URL "query q" "null")
      [BrokerEvent.timerFires]).listenerAttached = true := by
  decide

/-- C3 amended: when the timer of an unsettled call fires, the call
fails with the fixed query-timeout error (the timer was armed with the
30000 ms delay) and the pending slot is cleared before the error
surfaces, but the response observer is NOT detached — its attachment
state is left exactly as it was. -/
theorem c3_amended_timeout_clears_slot_not_listener (st : BrokerState)
    (ht : st.timerActive = true) (ho : st.outcome = none) :
    (brokerStep st BrokerEvent.timerFires).outcome =
      some (Except.error QUERY_TIMEOUT_MESSAGE) ∧
    (brokerStep st BrokerEvent.timerFires).pending = none ∧
    (brokerStep st BrokerEvent.timerFires).listenerAttached =
      st.listenerAttached ∧
    (brokerStep st BrokerEvent.timerFires).timerActive = false ∧
    (∀ tu q v, (initBroker tu q v).timerDelayMs = QUERY_TIMEOUT_MS) := by
  refine ⟨?_, ?_, ?_, ?_, fun tu q v => rfl⟩ <;>
    simp [brokerStep, ht, settleErr, ho]

/-- Witness for C3 amended at the freshly initialized broker state. -/
theorem c3_amended_timeout_clears_slot_not_listener_witness :
    (brokerStep (initBroker CUSTOMER_GRAPHQL_URL "query w" "null")
      BrokerEvent.timerFires).outcome =
      some (Except.error QUERY_TIMEOUT_MESSAGE) ∧
    (brokerStep (initBroker CUSTOMER_GRAPHQL_URL "query w" "null")
      BrokerEvent.timerFires).pending = none ∧
    (brokerStep (initBroker CUSTOMER_GRAPHQL_URL "query w" "null")
      BrokerEvent.timerFires).listenerAttached =
      (initBroker CUSTOMER_GRAPHQL_URL "query w" "null").listenerAttached := by
  have h := c3_amended_timeout_clears_slot_not_listener
    (initBroker CUSTOMER_GRAPHQL_URL "query w" "null") rfl rfl
  exact ⟨h.1, h.2.1, h.2.2.1⟩

theorem loadSession_clearFile (t : Int) (f : Option FileContent) :
    loadSession t (clearFile f) = none := by
  cases f <;> simp [clearFile, loadSession, EMPTY_RECORD]

theorem freshLoginStep_globalsAtLogin (g : SessionGlobals) (closed : List Nat)
    (cAtt : Nat) (rbc : Option Bool) (env : GetPageEnv) :
    (freshLoginStep g closed cAtt rbc env).globalsAtLogin = some g := by
  unfold freshLoginStep
  by_cases hc : env.hasCreds = false <;> simp [hc]

theorem freshLoginStep_connectAttempts (g : SessionGlobals) (closed : List Nat)
    (cAtt : Nat) (rbc : Option Bool) (env : GetPageEnv) :
    (freshLoginStep g closed cAtt rbc env).connectAttempts = cAtt := by
  unfold freshLoginStep
  by_cases hc : env.hasCreds = false <;> simp [hc]

theorem freshLoginStep_ok_shape (g : SessionGlobals) (closed : List Nat)
    (cAtt : Nat) (rbc : Option Bool) (env : GetPageEnv)
    (h : (freshLoginStep g closed cAtt rbc env).result = Except.ok ()) :
    (freshLoginStep g closed cAtt rbc env).globals.activePage.isSome = true ∧
    (freshLoginStep g closed cAtt rbc env).globals.routeInstalled = true := by
  by_cases hc : env.hasCreds = false
  · simp [freshLoginStep, hc] at h
  · cases hres : (freshLogin env.loginOutcomes
      ⟨g.activeBrowser, g.activePage, [], []⟩).result with
    | error m => simp [freshLoginStep, hc, hres] at h
    | ok u =>
      cases u
      refine ⟨?_, ?_⟩ <;> simp [freshLoginStep, hc, hres]
      exact loginLoop_ok_page env.loginOutcomes MAX_LOGIN_RETRIES
        ⟨g.activeBrowser, g.activePage, [], []⟩ 1 hres

theorem reconnectStep_at_reconnect (g : SessionGlobals) (closed : List Nat)
    (env : GetPageEnv) :
    (reconnectStep g closed env).globalsAtReconnect = some g := rfl

theorem freshLoginStep_closed_subset (g : SessionGlobals) (closed : List Nat)
    (cAtt : Nat) (rbc : Option Bool) (env : GetPageEnv) (b : Nat)
    (hb : b ∈ closed) :
    b ∈ (freshLoginStep g closed cAtt rbc env).closedBrowsers := by
  unfold freshLoginStep
  by_cases hc : env.hasCreds = false <;> simp [hc, hb]

theorem reconnectStep_closed_subset (g : SessionGlobals) (closed : List Nat)
    (env : GetPageEnv) (b : Nat) (hb : b ∈ closed) :
    b ∈ (reconnectStep g closed env).closedBrowsers := by
  unfold reconnectStep
  cases hload : loadSession env.now g.sessionFile with
  | none => simpa using freshLoginStep_closed_subset g closed 0 none env b hb
  | some s =>
    by_cases hc : env.reconnect.connectOk = true
    · by_cases hpp : (env.reconnect.pagePresent &&
        strIncludes env.reconnect.pageUrl "/app/") = true
      · by_cases hpr : env.reconnect.probeOk = true
        · simp [hc, hpp, hpr, hb]
        · simp only [hc, hpp, hpr, Bool.false_eq_true, if_false, if_true]
          apply freshLoginStep_closed_subset
          simp [hb]
      · simp only [hc, hpp, Bool.false_eq_true, if_false, if_true]
        apply freshLoginStep_closed_subset
        simp [hb]
    · simp only [hc, Bool.false_eq_true, if_false, if_true]
      apply freshLoginStep_closed_subset
      simp [hb]

theorem reconnectStep_failure (g : SessionGlobals) (closed : List Nat)
    (env : GetPageEnv)
    (hsaved : (loadSession env.now g.sessionFile).isSome = true)
    (hfail : env.reconnect.connectOk = false ∨
      (env.reconnect.pagePresent &&
        strIncludes env.reconnect.pageUrl "/app/") = false ∨
      env.reconnect.probeOk = false) :
    (reconnectStep g closed env).globalsAtLogin = some (clearSession g).1 ∧
    (reconnectStep g closed env).connectAttempts = 1 ∧
    (∀ b, g.activeBrowser = some b →
      b ∈ (reconnectStep g closed env).closedBrowsers) := by
  obtain ⟨s, hs⟩ := Option.isSome_iff_exists.mp hsaved
  unfold reconnectStep
  by_cases hc : env.reconnect.connectOk = true
  · by_cases hpp : (env.reconnect.pagePresent &&
      strIncludes env.reconnect.pageUrl "/app/") = true
    · have hpr : env.reconnect.probeOk = false := by
        rcases hfail with h | h | h
        · simp [h] at hc
        · simp [h] at hpp
        · exact h
      refine ⟨?_, ?_, ?_⟩
      · simp [hs, hc, hpp, hpr, freshLoginStep_globalsAtLogin]
      · simp [hs, hc, hpp, hpr, freshLoginStep_connectAttempts]
      · intro b hb
        simp only [hs, hc, hpp, hpr, Bool.false_eq_true, if_false, if_true]
        apply freshLoginStep_closed_subset
        simp [clearSession, hb]
    · refine ⟨?_, ?_, ?_⟩
      · simp [hs, hc, hpp, freshLoginStep_globalsAtLogin]
      · simp [hs, hc, hpp, freshLoginStep_connectAttempts]
      · intro b hb
        simp only [hs, hc, hpp, Bool.false_eq_true, if_false, if_true]
        apply freshLoginStep_closed_subset
        simp [clearSession, hb]
  · refine ⟨?_, ?_, ?_⟩
    · simp [hs, hc, freshLoginStep_globalsAtLogin]
    · simp [hs, hc, freshLoginStep_connectAttempts]
    · intro b hb
      simp only [hs, hc, Bool.false_eq_true, if_false, if_true]
      apply freshLoginStep_closed_subset
      simp [clearSession, hb]

theorem reconnectStep_ok_shape (g : SessionGlobals) (closed : List Nat)
    (env : GetPageEnv)
    (h : (reconnectStep g closed env).result = Except.ok ()) :
    (reconnectStep g closed env).globals.activePage.isSome = true ∧
    (reconnectStep g closed env).globals.routeInstalled = true := by
  unfold reconnectStep at h ⊢
  cases hload : loadSession env.now g.sessionFile with
  | none =>
    rw [hload] at h
    have := freshLoginStep_ok_shape g closed 0 none env (by exact h)
    simpa using this
  | some s =>
    rw [hload] at h
    by_cases hc : env.reconnect.connectOk = true
    · by_cases hpp : (env.reconnect.pagePresent &&
        strIncludes env.reconnect.pageUrl "/app/") = true
      · by_cases hpr : env.reconnect.probeOk = true
        · simp [hc, hpp, hpr]
        · simp only [hc, hpp, hpr] at h ⊢
          have := freshLoginStep_ok_shape (clearSession g).1
            (closed ++ (clearSession g).2.toList) 1 (some false) env
            (by simpa using h)
          simpa using this
      · simp only [hc, hpp] at h ⊢
        have := freshLoginStep_ok_shape (clearSession g).1
          ((closed ++ [RECONNECT_BROWSER]) ++ (clearSession g).2.toList) 1
          (some true) env (by simpa using h)
        simpa using this
    · simp only [hc] at h ⊢
      have := freshLoginStep_ok_shape (clearSession g).1
        (closed ++ (clearSession g).2.toList) 1 none env (by simpa using h)
      simpa using this

/-- C7: on a liveness failure the session is torn down before the next
acquisition step runs.  Part one: when the in-memory probe throws, the
reconnect step is entered with the page handle, route flag and browser
handle cleared, the persisted descriptor invalidated (so no reconnect
attempt is possible and none is made), and the previously held browser
closed.  Part two: when a reconnect fails at connect, location check or
liveness probe, the fresh-login step is entered next with the globals
cleared and the descriptor invalidated, after exactly one reconnect
attempt — never a second — and any held browser closed.  Part three:
whenever getPage returns successfully, the returned session has a page
handle and installed routes, so no half-alive session is observable. -/
theorem c7_liveness_failure_teardown (g0 : SessionGlobals) (env : GetPageEnv) :
    (g0.activePage.isSome = true → g0.routeInstalled = true →
      env.inMemProbeOk = false →
      (getPage g0 env).globalsAtReconnect =
        some ⟨none, none, false, clearFile g0.sessionFile⟩ ∧
      (getPage g0 env).connectAttempts = 0 ∧
      (∀ b, g0.activeBrowser = some b →
        b ∈ (getPage g0 env).closedBrowsers) ∧
      (∀ t, loadSession t (clearFile g0.sessionFile) = none)) ∧
    ((g0.activePage.isSome && g0.routeInstalled) = false →
      (loadSession env.now g0.sessionFile).isSome = true →
      (env.reconnect.connectOk = false ∨
        (env.reconnect.pagePresent &&
          strIncludes env.reconnect.pageUrl "/app/") = false ∨
        env.reconnect.probeOk = false) →
      (getPage g0 env).globalsAtLogin =
        some ⟨none, none, false, clearFile g0.sessionFile⟩ ∧
      (getPage g0 env).connectAttempts = 1 ∧
      (∀ b, g0.activeBrowser = some b →
        b ∈ (getPage g0 env).closedBrowsers) ∧
      (∀ t, loadSession t (clearFile g0.sessionFile) = none)) ∧
    ((getPage g0 env).result = Except.ok () →
      (getPage g0 env).globals.activePage.isSome = true ∧
      (getPage g0 env).globals.routeInstalled = true) := by
  refine ⟨?_, ?_, ?_⟩
  · intro hp hr hm
    have hguard : (g0.activePage.isSome && g0.routeInstalled) = true := by
      rw [hp, hr]
      rfl
    have hred : getPage g0 env =
        reconnectStep (clearSession g0).1 (clearSession g0).2.toList env := by
      simp [getPage, hguard, hm]
    rw [hred]
    refine ⟨?_, ?_, ?_, fun t => loadSession_clearFile t g0.sessionFile⟩
    · exact reconnectStep_at_reconnect _ _ _
    · simp [reconnectStep, clearSession, loadSession_clearFile,
        freshLoginStep_connectAttempts]
    · intro b hb
      apply reconnectStep_closed_subset
      simp [clearSession, hb]
  · intro hguard hsaved hfail
    have hred : getPage g0 env = reconnectStep g0 [] env := by
      simp [getPage, hguard]
    rw [hred]
    have hf := reconnectStep_failure g0 [] env hsaved hfail
    exact ⟨hf.1, hf.2.1, hf.2.2, fun t => loadSession_clearFile t g0.sessionFile⟩
  · intro hok
    by_cases hguard : (g0.activePage.isSome && g0.routeInstalled) = true
    · by_cases hm : env.inMemProbeOk = true
      · have hred : getPage g0 env =
            ⟨Except.ok (), g0, 0, 0, none, none, [], none⟩ := by
          simp [getPage, hguard, hm]
        rw [hred]
        exact ⟨(Bool.and_eq_true _ _ |>.mp hguard).1,
          (Bool.and_eq_true _ _ |>.mp hguard).2⟩
      · have hm' : env.inMemProbeOk = false := by simpa using hm
        have hred : getPage g0 env =
            reconnectStep (clearSession g0).1 (clearSession g0).2.toList env := by
          simp [getPage, hguard, hm']
        rw [hred] at hok ⊢
        exact reconnectStep_ok_shape _ _ _ hok
    · have hguard' : (g0.activePage.isSome && g0.routeInstalled) = false := by
        simpa using hguard
      have hred : getPage g0 env = reconnectStep g0 [] env := by
        simp [getPage, hguard']
      rw [hred] at hok ⊢
      exact reconnectStep_ok_shape _ _ _ hok

/-- Witness for C7: a thrown in-memory probe clears everything and
closes browser 7 before the reconnect step; a thrown reconnect probe
invalidates the descriptor and enters fresh login with cleared globals
after exactly one reconnect attempt; a cleared descriptor never loads;
and a successful acquisition carries a page with installed routes. -/
theorem c7_liveness_failure_teardown_witness :
    (getPage g1Ex envMemThrowEx).globalsAtReconnect =
      some ⟨none, none, false, clearFile g1Ex.sessionFile⟩ ∧
    7 ∈ (getPage g1Ex envMemThrowEx).closedBrowsers ∧
    (getPage g0Ex envProbeThrowEx).globalsAtLogin =
      some ⟨none, none, false, clearFile g0Ex.sessionFile⟩ ∧
    (getPage g0Ex envProbeThrowEx).connectAttempts = 1 ∧
    7 ∈ (getPage g0Ex envProbeThrowEx).closedBrowsers ∧
    loadSession 12345 (clearFile g0Ex.sessionFile) = none ∧
    (getPage g1Ex envOkEx).globals.activePage.isSome = true := by
  have hA := (c7_liveness_failure_teardown g1Ex envMemThrowEx).1 rfl rfl rfl
  have hB := (c7_liveness_failure_teardown g0Ex envProbeThrowEx).2.1
    (by decide) (by decide) (Or.inr (Or.inr rfl))
  have hC := (c7_liveness_failure_teardown g1Ex envOkEx).2.2 (by decide)
  exact ⟨hA.1, hA.2.2.1 7 rfl, hB.1, hB.2.1, hB.2.2.1 7 rfl,
    hB.2.2.2 12345, hC.1⟩
